import Mathlib

/-!
Shallow embedding of the cart/order subsystem of the e-commerce backend
(Express + Mongoose models `Cart`, `Order`, `Product` and the route handlers
in `routes/cart.js`, `routes/orders.js`, `routes/payment.js`), together with
theorems settling the specification claims about it.

Monetary amounts are modelled as exact rationals (the spec treats prices as
decimal-accurate currency values); JavaScript `Math.round` is modelled as
`⌊x + 1/2⌋`.  Document identifiers are modelled as naturals; the document
store keyed by id is modelled as a list of records looked up by id.
-/

namespace ECommerce

/-- One entry of `selectedVariants` on a cart or order line item:
a chosen variant name/value pair with the price modifier captured at add-time. -/
structure VariantSel where
  name : String
  value : String
  priceModifier : ℚ
deriving DecidableEq, Repr

/-- A cart line item (`cartItemSchema`): product reference, quantity,
selected variants, and the unit price captured when the item was added. -/
structure CartItem where
  product : Nat
  quantity : Nat
  selectedVariants : List VariantSel
  price : ℚ
deriving DecidableEq, Repr

/-- The cart aggregate (`cartSchema`): line items, optional coupon code,
and the stored discount amount. -/
structure Cart where
  items : List CartItem
  couponCode : Option String := none
  discount : ℚ := 0
deriving DecidableEq, Repr

/-- `selectedVariants.reduce((sum, variant) => sum + variant.priceModifier, 0)`. -/
def variantSum (svs : List VariantSel) : ℚ :=
  svs.foldl (fun sum v => sum + v.priceModifier) 0

/-- Cart virtual `totalItems`: `items.reduce((total, item) => total + item.quantity, 0)`. -/
def Cart.totalItems (c : Cart) : Nat :=
  c.items.foldl (fun total item => total + item.quantity) 0

/-- Cart virtual `subtotal`:
`items.reduce((total, item) => total + (item.price + variantPrice) * item.quantity, 0)`. -/
def Cart.subtotal (c : Cart) : ℚ :=
  c.items.foldl
    (fun total item => total + (item.price + variantSum item.selectedVariants) * item.quantity) 0

/-- Cart virtual `total`: `Math.max(0, subtotal - discount)`. -/
def Cart.total (c : Cart) : ℚ :=
  max 0 (c.subtotal - c.discount)

/-- The per-line match test of `addItem`'s `findIndex`: same product reference,
same number of selected variants, and every existing variant name/value pair
occurs among the incoming selections. -/
def itemMatches (item : CartItem) (productId : Nat)
    (selectedVariants : List VariantSel) : Bool :=
  item.product == productId &&
  item.selectedVariants.length == selectedVariants.length &&
  item.selectedVariants.all fun variant =>
    selectedVariants.any fun sv => sv.name == variant.name && sv.value == variant.value

/-- `cartSchema.methods.addItem` acting on the item list: increase the quantity
of the first matching line, or append a new line when no line matches. -/
def addItemList (items : List CartItem) (productId : Nat) (quantity : Nat)
    (selectedVariants : List VariantSel) (price : ℚ) : List CartItem :=
  match items with
  | [] =>
    [{ product := productId, quantity := quantity,
       selectedVariants := selectedVariants, price := price }]
  | it :: rest =>
    if itemMatches it productId selectedVariants then
      { it with quantity := it.quantity + quantity } :: rest
    else
      it :: addItemList rest productId quantity selectedVariants price

/-- `cartSchema.methods.addItem` on the cart aggregate. -/
def Cart.addItem (c : Cart) (productId : Nat) (quantity : Nat)
    (selectedVariants : List VariantSel) (price : ℚ) : Cart :=
  { c with items := addItemList c.items productId quantity selectedVariants price }

/-- The variant-selection key of a list of selections: its name/value pairs. -/
def variantKeys (svs : List VariantSel) : List (String × String) :=
  svs.map fun v => (v.name, v.value)

/-- Two lines have the same merge key when they reference the same product and
their variant-selection sets coincide (name/value pairs equal up to order). -/
def SameSelection (a : CartItem) (pid : Nat) (svs : List VariantSel) : Prop :=
  a.product = pid ∧ (variantKeys a.selectedVariants).Perm (variantKeys svs)

instance (a : CartItem) (pid : Nat) (svs : List VariantSel) :
    Decidable (SameSelection a pid svs) := by
  unfold SameSelection
  exact instDecidableAnd

/-- No two lines of the list share a product and variant-selection set. -/
def KeyDistinct (items : List CartItem) : Prop :=
  items.Pairwise fun a b => ¬ (a.product = b.product ∧
    (variantKeys a.selectedVariants).Perm (variantKeys b.selectedVariants))

/-- An identical product and variant-selection set makes the code's
`findIndex` predicate succeed. -/
theorem sameSelection_itemMatches {a : CartItem} {pid : Nat} {svs : List VariantSel}
    (h : SameSelection a pid svs) : itemMatches a pid svs = true := by
  obtain ⟨hp, hperm⟩ := h
  unfold itemMatches
  simp only [Bool.and_eq_true, beq_iff_eq, List.all_eq_true, List.any_eq_true]
  refine ⟨⟨hp, ?_⟩, ?_⟩
  · have := hperm.length_eq
    simpa [variantKeys] using this
  · intro v hv
    have hmem : (v.name, v.value) ∈ variantKeys a.selectedVariants := by
      unfold variantKeys
      exact List.mem_map_of_mem _ hv
    have hmem' : (v.name, v.value) ∈ variantKeys svs := hperm.mem_iff.mp hmem
    unfold variantKeys at hmem'
    obtain ⟨sv, hsv, hkey⟩ := List.mem_map.mp hmem'
    refine ⟨sv, hsv, ?_⟩
    have h1 : sv.name = v.name := congrArg Prod.fst hkey
    have h2 : sv.value = v.value := congrArg Prod.snd hkey
    simp [h1, h2]

/-- Every element of `addItemList items …` either carries the key of an element
of `items` or carries the key of the added line. -/
theorem addItemList_mem_keys {items : List CartItem} {pid : Nat} {q : Nat}
    {svs : List VariantSel} {pr : ℚ} {b : CartItem}
    (hb : b ∈ addItemList items pid q svs pr) :
    (∃ b0 ∈ items, b.product = b0.product ∧ b.selectedVariants = b0.selectedVariants)
      ∨ (b.product = pid ∧ b.selectedVariants = svs) := by
  induction items with
  | nil =>
    simp only [addItemList, List.mem_singleton] at hb
    subst hb
    exact Or.inr ⟨rfl, rfl⟩
  | cons it rest ih =>
    simp only [addItemList] at hb
    by_cases hm : itemMatches it pid svs = true
    · rw [if_pos hm] at hb
      rcases List.mem_cons.mp hb with h | h
      · subst h
        exact Or.inl ⟨it, List.mem_cons_self .., rfl, rfl⟩
      · exact Or.inl ⟨b, List.mem_cons_of_mem _ h, rfl, rfl⟩
    · rw [if_neg hm] at hb
      rcases List.mem_cons.mp hb with h | h
      · subst h
        exact Or.inl ⟨b, List.mem_cons_self .., rfl, rfl⟩
      · rcases ih h with ⟨b0, hb0, hkeys⟩ | hnew
        · exact Or.inl ⟨b0, List.mem_cons_of_mem _ hb0, hkeys⟩
        · exact Or.inr hnew

/-- When some line already has the added product and variant-selection set,
`addItem` appends no line. -/
theorem addItemList_length_of_match {items : List CartItem} {pid : Nat}
    {svs : List VariantSel} (q : Nat) (pr : ℚ)
    (h : ∃ it ∈ items, SameSelection it pid svs) :
    (addItemList items pid q svs pr).length = items.length := by
  induction items with
  | nil => simp at h
  | cons it rest ih =>
    obtain ⟨w, hw, hsel⟩ := h
    by_cases hm : itemMatches it pid svs = true
    · simp [addItemList, hm]
    · rcases List.mem_cons.mp hw with rfl | hw'
      · exact absurd (sameSelection_itemMatches hsel) hm
      · simp [addItemList, hm, ih ⟨w, hw', hsel⟩]

/-- When some line already has the added product and variant-selection set,
`addItem` grows the total quantity of the list by the added quantity. -/
theorem addItemList_qty_of_match {items : List CartItem} {pid : Nat}
    {svs : List VariantSel} (q : Nat) (pr : ℚ)
    (h : ∃ it ∈ items, SameSelection it pid svs) :
    ((addItemList items pid q svs pr).map CartItem.quantity).sum
      = (items.map CartItem.quantity).sum + q := by
  induction items with
  | nil => simp at h
  | cons it rest ih =>
    obtain ⟨w, hw, hsel⟩ := h
    by_cases hm : itemMatches it pid svs = true
    · simp only [addItemList, if_pos hm, List.map_cons, List.sum_cons]
      omega
    · rcases List.mem_cons.mp hw with rfl | hw'
      · exact absurd (sameSelection_itemMatches hsel) hm
      · simp only [addItemList, if_neg hm, List.map_cons, List.sum_cons,
          ih ⟨w, hw', hsel⟩]
        omega

/-- `addItem` preserves the no-duplicate-key invariant. -/
theorem addItemList_keyDistinct {items : List CartItem} {pid : Nat} {q : Nat}
    {svs : List VariantSel} {pr : ℚ} (h : KeyDistinct items) :
    KeyDistinct (addItemList items pid q svs pr) := by
  induction items with
  | nil =>
    simp [addItemList, KeyDistinct]
  | cons it rest ih =>
    rw [KeyDistinct, List.pairwise_cons] at h
    obtain ⟨hhead, hrest⟩ := h
    by_cases hm : itemMatches it pid svs = true
    · rw [KeyDistinct]
      simp only [addItemList, if_pos hm]
      rw [List.pairwise_cons]
      exact ⟨fun b hb => hhead b hb, hrest⟩
    · rw [KeyDistinct]
      simp only [addItemList, if_neg hm]
      rw [List.pairwise_cons]
      refine ⟨?_, ih hrest⟩
      intro b hb
      rcases addItemList_mem_keys hb with ⟨b0, hb0, hkp, hks⟩ | ⟨hkp, hks⟩
      · intro hcon
        exact hhead b0 hb0 ⟨hkp ▸ hcon.1, by rw [← hks]; exact hcon.2⟩
      · intro hcon
        exact hm (sameSelection_itemMatches ⟨hkp ▸ hcon.1, by rw [← hks]; exact hcon.2⟩)

/-- A left fold accumulating `+ f x` from an arbitrary seed is the seed plus the
sum of the mapped list. -/
theorem foldl_add_map {α : Type} (f : α → ℚ) (l : List α) (a : ℚ) :
    l.foldl (fun s x => s + f x) a = a + (l.map f).sum := by
  induction l generalizing a with
  | nil => simp
  | cons x xs ih => simp [ih, add_assoc]

/-- Nat version of `foldl_add_map`. -/
theorem foldl_add_map_nat {α : Type} (f : α → Nat) (l : List α) (a : Nat) :
    l.foldl (fun s x => s + f x) a = a + (l.map f).sum := by
  induction l generalizing a with
  | nil => simp
  | cons x xs ih => simp [ih, Nat.add_assoc]

/-- The cart virtual `totalItems` is the sum of the line quantities. -/
theorem totalItems_eq_sum (c : Cart) :
    c.totalItems = (c.items.map CartItem.quantity).sum := by
  unfold Cart.totalItems
  rw [show (fun (total : Nat) (item : CartItem) => total + item.quantity)
      = (fun s x => s + CartItem.quantity x) from rfl]
  rw [foldl_add_map_nat CartItem.quantity c.items 0, Nat.zero_add]

/-- C7: adding a line whose product and variant-selection set are identical to
those of an existing line merges into that line (the list length is unchanged
and the total quantity grows by the added quantity), and `addItem` preserves
the invariant that no cart contains two lines with the same product and
variant-selection set. -/
theorem addItem_merges_and_no_duplicate_lines (c : Cart) (pid q : Nat)
    (svs : List VariantSel) (pr : ℚ) :
    ((∃ it ∈ c.items, SameSelection it pid svs) →
      (c.addItem pid q svs pr).items.length = c.items.length ∧
      (c.addItem pid q svs pr).totalItems = c.totalItems + q) ∧
    (KeyDistinct c.items → KeyDistinct (c.addItem pid q svs pr).items) := by
  constructor
  · intro h
    refine ⟨addItemList_length_of_match q pr h, ?_⟩
    rw [totalItems_eq_sum, totalItems_eq_sum]
    exact addItemList_qty_of_match q pr h
  · intro h
    exact addItemList_keyDistinct h

/-- Variant selection used by the C7 witness. -/
def svSizeM : VariantSel := { name := "Size", value := "M", priceModifier := 2 }

/-- Variant selection used by the C7 witness. -/
def svColorRed : VariantSel := { name := "Color", value := "Red", priceModifier := 0 }

/-- Concrete cart for the C7 witness: one line, product 1, quantity 1, two
selected variants, captured price 20. -/
def c7Cart : Cart :=
  { items := [{ product := 1, quantity := 1,
                selectedVariants := [svSizeM, svColorRed], price := 20 }] }

/-- Witness for C7: adding product 1 again with the same selections listed in
the opposite order merges into the existing line. -/
theorem addItem_merges_witness :
    ((c7Cart.addItem 1 2 [svColorRed, svSizeM] 20).items.length = c7Cart.items.length ∧
      (c7Cart.addItem 1 2 [svColorRed, svSizeM] 20).totalItems = c7Cart.totalItems + 2) ∧
    KeyDistinct (c7Cart.addItem 1 2 [svColorRed, svSizeM] 20).items := by
  have h := addItem_merges_and_no_duplicate_lines c7Cart 1 2 [svColorRed, svSizeM] 20
  refine ⟨h.1 ?_, h.2 ?_⟩
  · exact ⟨{ product := 1, quantity := 1,
             selectedVariants := [svSizeM, svColorRed], price := 20 },
           by decide, by decide⟩
  · unfold KeyDistinct c7Cart
    decide

/-- C6: for every cart, the derived `subtotal` equals the sum over line items of
(captured price + sum of the line's variant price modifiers) × quantity, and the
derived `total` equals max(0, subtotal − discount). -/
theorem cart_subtotal_total_formula (c : Cart) :
    c.subtotal
      = (c.items.map
          (fun item =>
            (item.price + (item.selectedVariants.map VariantSel.priceModifier).sum)
              * (item.quantity : ℚ))).sum
      ∧ c.total = max 0 (c.subtotal - c.discount) := by
  constructor
  · unfold Cart.subtotal
    rw [foldl_add_map
      (fun item : CartItem =>
        (item.price + variantSum item.selectedVariants) * (item.quantity : ℚ))]
    rw [zero_add]
    congr 1
    apply List.map_congr_left
    intro item _
    unfold variantSum
    rw [foldl_add_map VariantSel.priceModifier, zero_add]
  · rfl

/-- Product inventory sub-record (`inventory {quantity, trackQuantity}`).
The quantity is an integer: the code's unconditional `$inc` can drive it
below zero for untracked products. -/
structure Inventory where
  quantity : Int
  trackQuantity : Bool
deriving DecidableEq, Repr

/-- A catalog product, restricted to the fields the cart/order logic reads. -/
structure Product where
  id : Nat
  name : String
  price : ℚ
  status : String
  inventory : Inventory
deriving DecidableEq, Repr

/-- Lookup in the product store by id (`Product.findById` / populate). -/
def findProduct (ps : List Product) (pid : Nat) : Option Product :=
  ps.find? fun p => p.id == pid

/-- `Product.findByIdAndUpdate(pid, { $inc: { 'inventory.quantity': d } })`
acting on the product store. -/
def incProduct (ps : List Product) (pid : Nat) (d : Int) : List Product :=
  ps.map fun p =>
    if p.id = pid then
      { p with inventory := { p.inventory with quantity := p.inventory.quantity + d } }
    else p

/-- Order payment status (`payment.status` enum). -/
inductive PaymentStatus
  | pending
  | processing
  | completed
  | failed
  | refunded
  | cancelled
deriving DecidableEq, Repr

/-- Order fulfillment status (`status` enum). -/
inductive OrderStatus
  | pending
  | confirmed
  | processing
  | shipped
  | delivered
  | cancelled
  | returned
deriving DecidableEq, Repr

/-- One entry of the append-only `statusHistory`. -/
structure StatusEntry where
  status : OrderStatus
  note : String
  updatedBy : Option Nat
  updatedAt : Nat
deriving DecidableEq, Repr

/-- The order's `payment` sub-record. -/
structure PaymentInfo where
  method : String
  status : PaymentStatus
  transactionId : Option String := none
  paidAt : Option Nat := none
deriving DecidableEq, Repr

/-- An order line item (`orderItemSchema`): snapshot of product reference,
name, unit price, quantity and selected variants at order-creation time. -/
structure OrderItem where
  product : Nat
  name : String
  price : ℚ
  quantity : Nat
  selectedVariants : List VariantSel
deriving DecidableEq, Repr

/-- The order's `pricing` breakdown. -/
structure Pricing where
  subtotal : ℚ
  shipping : ℚ
  tax : ℚ
  discount : ℚ
  total : ℚ
deriving DecidableEq, Repr

/-- The order aggregate, restricted to the fields the claims are about. -/
structure Order where
  items : List OrderItem
  pricing : Pricing
  payment : PaymentInfo
  status : OrderStatus := .pending
  statusHistory : List StatusEntry := []
  couponCode : Option String := none
deriving DecidableEq, Repr

/-- `orderSchema.methods.updateStatus`: append a history entry and overwrite
the current status. -/
def Order.updateStatus (o : Order) (newStatus : OrderStatus) (note : String)
    (updatedBy : Option Nat) (now : Nat) : Order :=
  { o with
    statusHistory := o.statusHistory
      ++ [{ status := newStatus, note := note, updatedBy := updatedBy, updatedAt := now }],
    status := newStatus }

/-- `updateStatus` leaves the line items untouched. -/
theorem updateStatus_items (o : Order) (s : OrderStatus) (n : String)
    (b : Option Nat) (t : Nat) : (o.updateStatus s n b t).items = o.items := rfl

/-- `updateStatus` leaves the payment sub-record untouched. -/
theorem updateStatus_payment (o : Order) (s : OrderStatus) (n : String)
    (b : Option Nat) (t : Nat) : (o.updateStatus s n b t).payment = o.payment := rfl

/-- `updateStatus` overwrites the status. -/
theorem updateStatus_status (o : Order) (s : OrderStatus) (n : String)
    (b : Option Nat) (t : Nat) : (o.updateStatus s n b t).status = s := rfl

/-- `orderSchema.methods.markAsPaid`: complete the payment, stamp the
transaction id and paid-at time, and drive the status to confirmed. -/
def Order.markAsPaid (o : Order) (transactionId : String) (now : Nat) : Order :=
  Order.updateStatus
    { o with payment := { o.payment with
        status := .completed,
        transactionId := some transactionId,
        paidAt := some now } }
    .confirmed ("Payment received") none now

/-- JavaScript `Math.round`: round half toward positive infinity. -/
def jsRound (x : ℚ) : ℤ := ⌊x + 1 / 2⌋

/-- The state read and written by the order-creation handler: the product
store and the requesting user's cart. -/
structure CheckoutState where
  products : List Product
  cart : Cart
deriving DecidableEq, Repr

/-- The validation/pricing loop of the POST /orders handler: for each cart
line item, require an active product with sufficient tracked stock, price
the line at the product's current price plus the captured variant modifiers,
and accumulate the subtotal and the order line items. -/
def buildOrderItems (ps : List Product) : List CartItem → Except String (ℚ × List OrderItem)
  | [] => .ok (0, [])
  | ci :: rest =>
    match findProduct ps ci.product with
    | none => .error ("Product is no longer available")
    | some p =>
      if p.status ≠ "active" then .error ("Product is no longer available")
      else if p.inventory.trackQuantity && p.inventory.quantity < (ci.quantity : Int) then
        .error ("Insufficient stock")
      else
        match buildOrderItems ps rest with
        | .error e => .error e
        | .ok (s, os) =>
          let itemPrice := p.price + variantSum ci.selectedVariants
          .ok (itemPrice * (ci.quantity : ℚ) + s,
               { product := ci.product, name := p.name, price := itemPrice,
                 quantity := ci.quantity, selectedVariants := ci.selectedVariants } :: os)

/-- The inventory-decrement loop after the order is saved. -/
def decrementInventory (ps : List Product) (items : List OrderItem) : List Product :=
  items.foldl (fun acc it => incProduct acc it.product (-(it.quantity : Int))) ps

/-- The inventory-restore loop of the cancel / status-change handlers. -/
def restoreInventory (ps : List Product) (items : List OrderItem) : List Product :=
  items.foldl (fun acc it => incProduct acc it.product (it.quantity : Int)) ps

/-- `cartSchema.methods.clearCart`: drop all items and reset coupon/discount. -/
def Cart.clearCart (c : Cart) : Cart :=
  { c with items := [], couponCode := none, discount := 0 }

/-- The POST /orders handler core: reject an empty cart, validate and price
the items, compute shipping / tax / discount / total, build the order with
pending payment, decrement inventory for every line item, and clear the cart. -/
def createOrder (st : CheckoutState) (method : String) : Except String (CheckoutState × Order) :=
  if st.cart.items.length = 0 then .error ("Cart is empty")
  else
    match buildOrderItems st.products st.cart.items with
    | .error e => .error e
    | .ok (subtotal, orderItems) =>
      let shipping : ℚ := if 100 ≤ subtotal then 0 else 10
      let tax : ℚ := (jsRound ((subtotal + shipping) * (85 / 1000) * 100) : ℚ) / 100
      let discount := st.cart.discount
      let total := subtotal + shipping + tax - discount
      let order : Order :=
        { items := orderItems,
          pricing := { subtotal := subtotal, shipping := shipping, tax := tax,
                       discount := discount, total := total },
          payment := { method := method, status := .pending },
          status := .pending,
          statusHistory := [],
          couponCode := st.cart.couponCode }
      .ok ({ products := decrementInventory st.products orderItems,
             cart := st.cart.clearCart }, order)

/-- Total inventory quantity stored for product id `pid`. -/
def qtyOf (ps : List Product) (pid : Nat) : Int :=
  (ps.map fun p => if p.id = pid then p.inventory.quantity else 0).sum

/-- Number of store records carrying product id `pid`, as an integer. -/
def countId (ps : List Product) (pid : Nat) : Int :=
  (ps.map fun p => if p.id = pid then (1 : Int) else 0).sum

/-- Total quantity of product `pid` across an order's line items. -/
def orderedQty (items : List OrderItem) (pid : Nat) : Int :=
  (items.map fun it => if it.product = pid then (it.quantity : Int) else 0).sum

/-- Effect of a single `$inc` on the per-id inventory sum. -/
theorem qtyOf_incProduct (ps : List Product) (pid x : Nat) (d : Int) :
    qtyOf (incProduct ps pid d) x
      = qtyOf ps x + countId ps x * (if pid = x then d else 0) := by
  unfold qtyOf countId incProduct
  rw [List.map_map]
  rw [List.map_congr_left (g := fun p : Product =>
    (if p.id = x then p.inventory.quantity else 0)
      + (if p.id = x then (1 : Int) else 0) * (if pid = x then d else 0)) ?_]
  · rw [List.sum_map_add, List.sum_map_mul_right]
  · intro p _
    by_cases h1 : p.id = pid <;> by_cases h2 : p.id = x
    · have hx : pid = x := h1.symm.trans h2
      simp [Function.comp, h1, h2, hx]
    · have hpx : ¬ pid = x := fun hc => h2 (h1.trans hc)
      simp [Function.comp, h1, h2, hpx]
    · have hpx : ¬ pid = x := fun hc => h1 (h2.trans hc.symm)
      have hxp : ¬ x = pid := fun hc => hpx hc.symm
      simp [Function.comp, h1, h2, hpx, hxp]
    · simp [Function.comp, h1, h2]

/-- `$inc` does not change which ids occur in the store. -/
theorem countId_incProduct (ps : List Product) (pid x : Nat) (d : Int) :
    countId (incProduct ps pid d) x = countId ps x := by
  unfold countId incProduct
  rw [List.map_map]
  apply congrArg
  apply List.map_congr_left
  intro p _
  by_cases h1 : p.id = pid <;> simp [Function.comp, h1]

/-- Effect on the per-id inventory sum of folding `$inc` over order items. -/
theorem qtyOf_foldl_inc (g : OrderItem → Int) (items : List OrderItem) :
    ∀ (ps : List Product) (x : Nat),
    qtyOf (items.foldl (fun acc it => incProduct acc it.product (g it)) ps) x
      = qtyOf ps x
        + countId ps x * (items.map fun it => if it.product = x then g it else 0).sum := by
  induction items with
  | nil => intro ps x; simp
  | cons it rest ih =>
    intro ps x
    simp only [List.foldl_cons, List.map_cons, List.sum_cons]
    rw [ih, qtyOf_incProduct, countId_incProduct]
    ring

/-- Negation moves out of the guarded quantity sum. -/
theorem sum_map_ite_neg (items : List OrderItem) (x : Nat) :
    (items.map fun it => if it.product = x then -((it.quantity : Int)) else 0).sum
      = -(items.map fun it => if it.product = x then (it.quantity : Int) else 0).sum := by
  induction items with
  | nil => simp
  | cons it rest ih => by_cases h : it.product = x <;> simp [h, ih] <;> ring

/-- The decrement loop lowers each id's inventory sum by the ordered quantity
times the number of records with that id. -/
theorem qtyOf_decrementInventory (ps : List Product) (items : List OrderItem) (x : Nat) :
    qtyOf (decrementInventory ps items) x
      = qtyOf ps x - countId ps x * orderedQty items x := by
  unfold decrementInventory
  rw [qtyOf_foldl_inc (fun it => -((it.quantity : Int))) items ps x]
  rw [sum_map_ite_neg]
  unfold orderedQty
  ring

/-- The restore loop raises each id's inventory sum by the ordered quantity
times the number of records with that id. -/
theorem qtyOf_restoreInventory (ps : List Product) (items : List OrderItem) (x : Nat) :
    qtyOf (restoreInventory ps items) x
      = qtyOf ps x + countId ps x * orderedQty items x := by
  unfold restoreInventory
  rw [qtyOf_foldl_inc (fun it => (it.quantity : Int)) items ps x]
  rfl

/-- An id carried by no record has count 0. -/
theorem countId_eq_zero (ps : List Product) (pid : Nat)
    (h : ∀ p ∈ ps, p.id ≠ pid) : countId ps pid = 0 := by
  unfold countId
  induction ps with
  | nil => simp
  | cons p rest ih =>
    simp only [List.map_cons, List.sum_cons]
    rw [if_neg (h p (List.mem_cons_self ..)), ih fun q hq => h q (List.mem_cons_of_mem _ hq)]
    ring

/-- In a store with pairwise-distinct ids, an id carried by some record has
count exactly 1. -/
theorem countId_eq_one (ps : List Product) (pid : Nat) (p : Product)
    (hids : (ps.map Product.id).Nodup) (hp : p ∈ ps) (hid : p.id = pid) :
    countId ps pid = 1 := by
  induction ps with
  | nil => simp at hp
  | cons q rest ih =>
    rw [List.map_cons, List.nodup_cons] at hids
    obtain ⟨hq, hrest⟩ := hids
    rcases List.mem_cons.mp hp with rfl | hp2
    · unfold countId
      simp only [List.map_cons, List.sum_cons]
      rw [if_pos hid]
      have hz : countId rest pid = 0 := by
        apply countId_eq_zero
        intro r hr hrid
        exact hq (by rw [hid, ← hrid]; exact List.mem_map_of_mem _ hr)
      unfold countId at hz
      rw [hz]
      ring
    · have hqid : q.id ≠ pid := by
        intro hcon
        exact hq (by rw [hcon, ← hid]; exact List.mem_map_of_mem _ hp2)
      unfold countId
      simp only [List.map_cons, List.sum_cons]
      rw [if_neg hqid]
      have hone := ih hrest hp2
      unfold countId at hone
      rw [hone]
      ring

/-- A product ordered by no line item has ordered quantity 0. -/
theorem orderedQty_eq_zero (items : List OrderItem) (pid : Nat)
    (h : ∀ it ∈ items, it.product ≠ pid) : orderedQty items pid = 0 := by
  unfold orderedQty
  induction items with
  | nil => simp
  | cons it rest ih =>
    simp only [List.map_cons, List.sum_cons]
    rw [if_neg (h it (List.mem_cons_self ..)), ih fun q hq => h q (List.mem_cons_of_mem _ hq)]
    ring

/-- The validation/pricing loop, when it succeeds, snapshots the cart's
products and quantities, prices every line at the product's current price plus
the captured variant modifiers, returns the corresponding subtotal, and only
emits items whose product exists in the store. -/
theorem buildOrderItems_spec (ps : List Product) :
    ∀ (items : List CartItem) (s : ℚ) (os : List OrderItem),
    buildOrderItems ps items = Except.ok (s, os) →
    os.map OrderItem.product = items.map CartItem.product ∧
    os.map OrderItem.quantity = items.map CartItem.quantity ∧
    os.map OrderItem.price = items.map (fun ci =>
      (findProduct ps ci.product).elim 0 (fun p => p.price + variantSum ci.selectedVariants)) ∧
    s = (items.map fun ci =>
      (findProduct ps ci.product).elim 0 (fun p => p.price + variantSum ci.selectedVariants)
        * (ci.quantity : ℚ)).sum ∧
    ∀ it ∈ os, ∃ p ∈ ps, p.id = it.product := by
  intro items
  induction items with
  | nil =>
    intro s os h
    simp only [buildOrderItems, Except.ok.injEq, Prod.mk.injEq] at h
    obtain ⟨hs, hos⟩ := h
    subst hs
    subst hos
    simp
  | cons ci rest ih =>
    intro s os h
    cases hf : findProduct ps ci.product with
    | none => simp [buildOrderItems, hf] at h
    | some p =>
      by_cases hst : p.status ≠ "active"
      · simp [buildOrderItems, hf, hst] at h
      · by_cases htk :
          (p.inventory.trackQuantity && decide (p.inventory.quantity < (ci.quantity : Int))) = true
        · simp only [buildOrderItems, hf] at h
          rw [if_neg hst, if_pos htk] at h
          exact absurd h (by simp)
        · cases hb : buildOrderItems ps rest with
          | error e =>
            simp only [buildOrderItems, hf] at h
            rw [if_neg hst, if_neg htk] at h
            simp [hb] at h
          | ok pr =>
            obtain ⟨s0, os0⟩ := pr
            simp only [buildOrderItems, hf] at h
            rw [if_neg hst, if_neg htk] at h
            simp only [hb, Except.ok.injEq, Prod.mk.injEq] at h
            obtain ⟨hs, hos⟩ := h
            subst hs
            subst hos
            obtain ⟨h1, h2, h3, h4, h5⟩ := ih s0 os0 hb
            refine ⟨?_, ?_, ?_, ?_, ?_⟩
            · simp [h1]
            · simp [h2]
            · simp [h3, hf]
            · simp [h4, hf]
            · intro it hit
              rcases List.mem_cons.mp hit with rfl | hit2
              · refine ⟨p, List.mem_of_find?_eq_some hf, ?_⟩
                have hpred := List.find?_some hf
                simpa using hpred
              · exact h5 it hit2

/-- C1: every order successfully created from a cart is priced with
shipping = 0 iff the subtotal reaches 100 (else 10), tax = the half-up
rounding of (subtotal + shipping) × 8.5% to 2 decimal places, discount = the
cart's stored discount, and total = subtotal + shipping + tax − discount. -/
theorem order_pricing_formula (st : CheckoutState) (method : String)
    (st' : CheckoutState) (o : Order)
    (h : createOrder st method = Except.ok (st', o)) :
    o.pricing.shipping = (if 100 ≤ o.pricing.subtotal then (0 : ℚ) else 10) ∧
    o.pricing.tax
      = (jsRound ((o.pricing.subtotal + o.pricing.shipping) * (85 / 1000) * 100) : ℚ) / 100 ∧
    o.pricing.discount = st.cart.discount ∧
    o.pricing.total
      = o.pricing.subtotal + o.pricing.shipping + o.pricing.tax - o.pricing.discount := by
  unfold createOrder at h
  split at h
  · exact absurd h (by simp)
  · cases hb : buildOrderItems st.products st.cart.items with
    | error e => rw [hb] at h; exact absurd h (by simp)
    | ok pr =>
      obtain ⟨subtotal, orderItems⟩ := pr
      rw [hb] at h
      simp only [Except.ok.injEq, Prod.mk.injEq] at h
      obtain ⟨-, ho⟩ := h
      subst ho
      exact ⟨rfl, rfl, rfl, rfl⟩

/-- Concrete checkout state for the C1 witness: one active product priced 120,
cart holding one unit of it, no discount. -/
def c1State : CheckoutState :=
  { products := [{ id := 1, name := "Widget", price := 120, status := "active",
                   inventory := { quantity := 5, trackQuantity := true } }],
    cart := { items := [{ product := 1, quantity := 1,
                          selectedVariants := [], price := 120 }] } }

/-- The state produced by `createOrder` on `c1State`. -/
def c1ResultState : CheckoutState :=
  { products := [{ id := 1, name := "Widget", price := 120, status := "active",
                   inventory := { quantity := 4, trackQuantity := true } }],
    cart := { items := [], couponCode := none, discount := 0 } }

/-- The order produced by `createOrder` on `c1State`. -/
def c1ResultOrder : Order :=
  { items := [{ product := 1, name := "Widget", price := 120, quantity := 1,
                selectedVariants := [] }],
    pricing := { subtotal := 120, shipping := 0, tax := 51 / 5,
                 discount := 0, total := 651 / 5 },
    payment := { method := "stripe", status := .pending },
    status := .pending,
    statusHistory := [],
    couponCode := none }

/-- Witness for C1: the order of subtotal 120 with no discount gets
shipping 0, tax 10.20 = 51/5 and total 130.20 = 651/5. -/
theorem order_pricing_formula_witness :
    createOrder c1State ("stripe") = Except.ok (c1ResultState, c1ResultOrder) ∧
    c1ResultOrder.pricing.shipping = 0 ∧
    c1ResultOrder.pricing.tax = 51 / 5 ∧
    c1ResultOrder.pricing.total = 651 / 5 := by
  have h : createOrder c1State ("stripe") = Except.ok (c1ResultState, c1ResultOrder) := by
    norm_num [createOrder, buildOrderItems, findProduct, variantSum, decrementInventory,
      incProduct, Cart.clearCart, c1State, c1ResultState, c1ResultOrder, jsRound]
  have hp := order_pricing_formula c1State ("stripe") c1ResultState c1ResultOrder h
  refine ⟨h, ?_, ?_, ?_⟩
  · rw [hp.1]; norm_num [c1ResultOrder]
  · rw [hp.2.1]; norm_num [c1ResultOrder, jsRound]
  · rw [hp.2.2.2, hp.2.1, hp.1]; norm_num [c1ResultOrder, jsRound]

/-- C2: a single successful order creation decrements each ordered product's
inventory by exactly the ordered quantity (summed over the line items that
reference it) and leaves the source cart empty, with no coupon code and
discount 0. -/
theorem createOrder_decrements_and_clears (st : CheckoutState) (method : String)
    (st' : CheckoutState) (o : Order)
    (h : createOrder st method = Except.ok (st', o))
    (hids : (st.products.map Product.id).Nodup) :
    (∀ pid, qtyOf st'.products pid = qtyOf st.products pid - orderedQty o.items pid) ∧
    st'.cart = { items := [], couponCode := none, discount := 0 } := by
  unfold createOrder at h
  split at h
  · exact absurd h (by simp)
  · cases hb : buildOrderItems st.products st.cart.items with
    | error e => rw [hb] at h; exact absurd h (by simp)
    | ok pr =>
      obtain ⟨subtotal, orderItems⟩ := pr
      rw [hb] at h
      simp only [Except.ok.injEq, Prod.mk.injEq] at h
      obtain ⟨hst, ho⟩ := h
      subst ho
      constructor
      · intro pid
        rw [← hst]
        show qtyOf (decrementInventory st.products orderItems) pid
          = qtyOf st.products pid - orderedQty orderItems pid
        rw [qtyOf_decrementInventory]
        obtain ⟨-, -, -, -, h5⟩ := buildOrderItems_spec st.products st.cart.items subtotal orderItems hb
        by_cases hex : ∃ it ∈ orderItems, it.product = pid
        · obtain ⟨it, hit, hpid⟩ := hex
          obtain ⟨p, hp, hpidEq⟩ := h5 it hit
          rw [countId_eq_one st.products pid p hids hp (hpidEq.trans hpid)]
          ring
        · push_neg at hex
          rw [orderedQty_eq_zero orderItems pid hex]
          ring
      · rw [← hst]
        show st.cart.clearCart = _
        rfl

/-- Concrete checkout state for the C2 witness: two active products, a cart
with one line for each, a coupon and a discount. -/
def c2State : CheckoutState :=
  { products := [{ id := 1, name := "A", price := 30, status := "active",
                   inventory := { quantity := 5, trackQuantity := true } },
                 { id := 2, name := "B", price := 7, status := "active",
                   inventory := { quantity := 4, trackQuantity := false } }],
    cart := { items := [{ product := 1, quantity := 2, selectedVariants := [], price := 30 },
                        { product := 2, quantity := 3, selectedVariants := [], price := 7 }],
              couponCode := some ("SAVE10"), discount := 5 } }

/-- The state produced by `createOrder` on `c2State`. -/
def c2ResultState : CheckoutState :=
  { products := [{ id := 1, name := "A", price := 30, status := "active",
                   inventory := { quantity := 3, trackQuantity := true } },
                 { id := 2, name := "B", price := 7, status := "active",
                   inventory := { quantity := 1, trackQuantity := false } }],
    cart := { items := [], couponCode := none, discount := 0 } }

/-- The order produced by `createOrder` on `c2State`. -/
def c2ResultOrder : Order :=
  { items := [{ product := 1, name := "A", price := 30, quantity := 2,
                selectedVariants := [] },
              { product := 2, name := "B", price := 7, quantity := 3,
                selectedVariants := [] }],
    pricing := { subtotal := 81, shipping := 10, tax := 387 / 50,
                 discount := 5, total := 4687 / 50 },
    payment := { method := "stripe", status := .pending },
    status := .pending,
    statusHistory := [],
    couponCode := some ("SAVE10") }

/-- Witness for C2: both products are decremented by their ordered quantities
and the cart comes back empty. -/
theorem createOrder_decrements_witness :
    createOrder c2State ("stripe") = Except.ok (c2ResultState, c2ResultOrder) ∧
    (c2State.products.map Product.id).Nodup ∧
    qtyOf c2ResultState.products 1 = qtyOf c2State.products 1 - orderedQty c2ResultOrder.items 1 ∧
    qtyOf c2ResultState.products 2 = qtyOf c2State.products 2 - orderedQty c2ResultOrder.items 2 ∧
    c2ResultState.cart = { items := [], couponCode := none, discount := 0 } := by
  have h : createOrder c2State ("stripe") = Except.ok (c2ResultState, c2ResultOrder) := by
    norm_num [createOrder, buildOrderItems, findProduct, variantSum, decrementInventory,
      incProduct, Cart.clearCart, c2State, c2ResultState, c2ResultOrder, jsRound]
  have hids : (c2State.products.map Product.id).Nodup := by decide
  have hc := createOrder_decrements_and_clears c2State ("stripe") c2ResultState c2ResultOrder h hids
  exact ⟨h, hids, hc.1 1, hc.1 2, hc.2⟩

/-- The C3 claim as stated: every created order's line prices equal the cart's
captured line prices and its subtotal is the sum of captured price × quantity. -/
def OrderUsesCapturedPrices : Prop :=
  ∀ (st : CheckoutState) (method : String) (st' : CheckoutState) (o : Order),
    createOrder st method = Except.ok (st', o) →
    o.items.map OrderItem.price = st.cart.items.map CartItem.price ∧
    o.pricing.subtotal = (st.cart.items.map fun ci => ci.price * (ci.quantity : ℚ)).sum

/-- Checkout state refuting C3: the cart captured price 50 for product 1, but
the product's current price is 60. -/
def c3State : CheckoutState :=
  { products := [{ id := 1, name := "W", price := 60, status := "active",
                   inventory := { quantity := 5, trackQuantity := true } }],
    cart := { items := [{ product := 1, quantity := 1,
                          selectedVariants := [], price := 50 }] } }

/-- The state produced by `createOrder` on `c3State`. -/
def c3ResultState : CheckoutState :=
  { products := [{ id := 1, name := "W", price := 60, status := "active",
                   inventory := { quantity := 4, trackQuantity := true } }],
    cart := { items := [], couponCode := none, discount := 0 } }

/-- The order produced by `createOrder` on `c3State`: the line is priced at the
current product price 60, not the captured cart price 50. -/
def c3ResultOrder : Order :=
  { items := [{ product := 1, name := "W", price := 60, quantity := 1,
                selectedVariants := [] }],
    pricing := { subtotal := 60, shipping := 10, tax := 119 / 20,
                 discount := 0, total := 1519 / 20 },
    payment := { method := "stripe", status := .pending },
    status := .pending,
    statusHistory := [],
    couponCode := none }

/-- Counterexample to C3: on `c3State` the created order prices the line at 60
(the current product price) while the cart captured 50, so order pricing is
not computed from the prices captured at add-time. -/
theorem order_prices_not_captured : ¬ OrderUsesCapturedPrices := by
  intro hcl
  have h : createOrder c3State ("stripe") = Except.ok (c3ResultState, c3ResultOrder) := by
    norm_num [createOrder, buildOrderItems, findProduct, variantSum, decrementInventory,
      incProduct, Cart.clearCart, c3State, c3ResultState, c3ResultOrder, jsRound]
  have hmap := (hcl c3State ("stripe") c3ResultState c3ResultOrder h).1
  simp only [c3ResultOrder, c3State, List.map_cons, List.map_nil, List.cons.injEq] at hmap
  exact absurd hmap.1 (by norm_num)

/-- C3 amended: each order line's price is the product's current price at
order-creation time plus the captured variant modifiers (the captured cart
price is ignored), quantities are the cart quantities, and the subtotal sums
these current-price lines; only from order creation onward is the snapshot
fixed. -/
theorem order_prices_current_product (st : CheckoutState) (method : String)
    (st' : CheckoutState) (o : Order)
    (h : createOrder st method = Except.ok (st', o)) :
    o.items.map OrderItem.price = st.cart.items.map (fun ci =>
      (findProduct st.products ci.product).elim 0
        (fun p => p.price + variantSum ci.selectedVariants)) ∧
    o.items.map OrderItem.quantity = st.cart.items.map CartItem.quantity ∧
    o.pricing.subtotal = (st.cart.items.map fun ci =>
      (findProduct st.products ci.product).elim 0
        (fun p => p.price + variantSum ci.selectedVariants) * (ci.quantity : ℚ)).sum := by
  unfold createOrder at h
  split at h
  · exact absurd h (by simp)
  · cases hb : buildOrderItems st.products st.cart.items with
    | error e => rw [hb] at h; exact absurd h (by simp)
    | ok pr =>
      obtain ⟨subtotal, orderItems⟩ := pr
      rw [hb] at h
      simp only [Except.ok.injEq, Prod.mk.injEq] at h
      obtain ⟨-, ho⟩ := h
      subst ho
      obtain ⟨-, h2, h3, h4, -⟩ :=
        buildOrderItems_spec st.products st.cart.items subtotal orderItems hb
      exact ⟨h3, h2, h4⟩

/-- Witness for the amended C3: on `c3State` the theorem yields line price 60
and subtotal 60, the current product price. -/
theorem order_prices_current_witness :
    createOrder c3State ("stripe") = Except.ok (c3ResultState, c3ResultOrder) ∧
    c3ResultOrder.items.map OrderItem.price = [60] ∧
    c3ResultOrder.pricing.subtotal = 60 := by
  have h : createOrder c3State ("stripe") = Except.ok (c3ResultState, c3ResultOrder) := by
    norm_num [createOrder, buildOrderItems, findProduct, variantSum, decrementInventory,
      incProduct, Cart.clearCart, c3State, c3ResultState, c3ResultOrder, jsRound]
  have hp := order_prices_current_product c3State ("stripe") c3ResultState c3ResultOrder h
  refine ⟨h, ?_, ?_⟩
  · rw [hp.1]
    norm_num [c3State, findProduct, variantSum]
  · rw [hp.2.2]
    norm_num [c3State, findProduct, variantSum]

/-- POST /payment/stripe/confirm, provider-reported success path: applies
`markAsPaid` unconditionally. -/
def confirmPaymentSucceeded (o : Order) (paymentIntentId : String) (now : Nat) : Order :=
  o.markAsPaid paymentIntentId now

/-- POST /payment/stripe/webhook, `payment_intent.succeeded` case: applies
`markAsPaid` only when the order's payment is not already completed. -/
def webhookPaymentSucceeded (o : Order) (paymentIntentId : String) (now : Nat) : Order :=
  if o.payment.status ≠ PaymentStatus.completed then o.markAsPaid paymentIntentId now else o

/-- The C4 claim as stated: on an already-completed order, both the duplicate
webhook delivery and a second synchronous confirm call are no-ops. -/
def SuccessReconciliationIdempotent : Prop :=
  ∀ (o : Order) (pid : String) (now : Nat),
    o.payment.status = PaymentStatus.completed →
    webhookPaymentSucceeded o pid now = o ∧ confirmPaymentSucceeded o pid now = o

/-- An already-paid order used to refute C4. -/
def c4Order : Order :=
  { items := [],
    pricing := { subtotal := 20, shipping := 10, tax := 0, discount := 0, total := 30 },
    payment := { method := "stripe", status := .completed,
                 transactionId := some ("pi_1"), paidAt := some 5 },
    status := .confirmed,
    statusHistory := [{ status := .confirmed, note := "Payment received",
                        updatedBy := none, updatedAt := 5 }],
    couponCode := none }

/-- Counterexample to C4: a second synchronous confirm call on the completed
order `c4Order` appends another status-history entry, so it is not a no-op. -/
theorem confirm_not_idempotent : ¬ SuccessReconciliationIdempotent := by
  intro hcl
  have h := (hcl c4Order ("pi_1") 6 rfl).2
  have hlen := congrArg (fun o => o.statusHistory.length) h
  simp [confirmPaymentSucceeded, Order.markAsPaid, Order.updateStatus, c4Order] at hlen

/-- C4 amended: re-delivering the success webhook to an already-completed
order is a no-op, while a second synchronous confirm call re-applies
`markAsPaid`: it appends another confirmed history entry (and refreshes the
payment fields, leaving the status completed). -/
theorem webhook_idempotent_confirm_reapplies (o : Order) (pid : String) (now : Nat)
    (h : o.payment.status = PaymentStatus.completed) :
    webhookPaymentSucceeded o pid now = o ∧
    (confirmPaymentSucceeded o pid now).statusHistory
      = o.statusHistory ++ [{ status := .confirmed, note := "Payment received",
                              updatedBy := none, updatedAt := now }] ∧
    (confirmPaymentSucceeded o pid now).payment.status = PaymentStatus.completed := by
  refine ⟨?_, rfl, rfl⟩
  unfold webhookPaymentSucceeded
  rw [if_neg (fun hc => hc h)]

/-- Witness for the amended C4 on `c4Order`. -/
theorem webhook_idempotent_witness :
    c4Order.payment.status = PaymentStatus.completed ∧
    webhookPaymentSucceeded c4Order ("pi_2") 7 = c4Order ∧
    (confirmPaymentSucceeded c4Order ("pi_2") 7).statusHistory.length
      = c4Order.statusHistory.length + 1 := by
  have h : c4Order.payment.status = PaymentStatus.completed := rfl
  have hw := webhook_idempotent_confirm_reapplies c4Order ("pi_2") 7 h
  refine ⟨h, hw.1, ?_⟩
  rw [hw.2.1]
  simp

/-- The state read and written by the status-change / cancel / refund
handlers: the product store and the addressed order. -/
structure OrderState where
  products : List Product
  order : Order
deriving DecidableEq, Repr

/-- PUT /orders/:id/status handler core (admin): append a history entry and
overwrite the status; restore inventory only when the new status is cancelled
and the payment was completed. -/
def adminUpdateStatus (st : OrderState) (newStatus : OrderStatus) (note : String)
    (adminId : Nat) (now : Nat) : OrderState :=
  let o := st.order.updateStatus newStatus note (some adminId) now
  { products :=
      if newStatus = OrderStatus.cancelled ∧ o.payment.status = PaymentStatus.completed then
        restoreInventory st.products o.items
      else st.products,
    order := o }

/-- POST /payment/refund handler core (admin): requires a completed payment,
marks the payment refunded and transitions the order to returned; the product
store is not touched. -/
def refundOrder (st : OrderState) (reason : Option String) (adminId : Nat) (now : Nat) :
    Except String OrderState :=
  if st.order.payment.status ≠ PaymentStatus.completed then
    .error ("Order payment is not completed")
  else
    .ok { products := st.products,
          order := Order.updateStatus
            { st.order with payment := { st.order.payment with status := .refunded } }
            .returned (reason.getD ("Refunded by admin")) (some adminId) now }

/-- The C5 claim as stated: with a completed payment, a transition to
cancelled or to returned restores every line item's quantity to inventory. -/
def CancelledOrReturnedRestores : Prop :=
  ∀ (st : OrderState) (s : OrderStatus) (note : String) (adminId now : Nat),
    st.order.payment.status = PaymentStatus.completed →
    (s = OrderStatus.cancelled ∨ s = OrderStatus.returned) →
    ∀ pid, qtyOf (adminUpdateStatus st s note adminId now).products pid
      = qtyOf st.products pid + orderedQty st.order.items pid

/-- A paid, delivered order over a stocked product, used to refute C5. -/
def c5State : OrderState :=
  { products := [{ id := 1, name := "W", price := 10, status := "active",
                   inventory := { quantity := 5, trackQuantity := true } }],
    order := { items := [{ product := 1, name := "W", price := 10, quantity := 2,
                           selectedVariants := [] }],
               pricing := { subtotal := 20, shipping := 0, tax := 0,
                            discount := 0, total := 20 },
               payment := { method := "stripe", status := .completed,
                            transactionId := some ("pi_5"), paidAt := some 1 },
               status := .delivered,
               statusHistory := [],
               couponCode := none } }

/-- Counterexample to C5: transitioning `c5State`'s paid order to returned
leaves product 1 at quantity 5 instead of restoring it to 7. -/
theorem returned_does_not_restore : ¬ CancelledOrReturnedRestores := by
  intro hcl
  have h := hcl c5State OrderStatus.returned ("") 9 9 rfl (Or.inr rfl) 1
  simp only [adminUpdateStatus] at h
  rw [if_neg (fun hc => absurd hc.1 (by decide))] at h
  norm_num [c5State, qtyOf, orderedQty] at h

/-- C5 amended: with a completed payment, the transition to cancelled restores
every ordered product's inventory by its ordered quantity, while the
transition to returned — via the admin status route or the refund route —
leaves the product store unchanged. -/
theorem cancelled_restores_returned_does_not (st : OrderState) (note : String)
    (adminId now : Nat) (reason : Option String)
    (hpay : st.order.payment.status = PaymentStatus.completed)
    (hids : (st.products.map Product.id).Nodup)
    (hin : ∀ it ∈ st.order.items, ∃ p ∈ st.products, p.id = it.product) :
    (∀ pid, qtyOf (adminUpdateStatus st OrderStatus.cancelled note adminId now).products pid
        = qtyOf st.products pid + orderedQty st.order.items pid) ∧
    (adminUpdateStatus st OrderStatus.returned note adminId now).products = st.products ∧
    (∀ res, refundOrder st reason adminId now = Except.ok res → res.products = st.products) := by
  refine ⟨?_, ?_, ?_⟩
  · intro pid
    simp only [adminUpdateStatus, updateStatus_items, updateStatus_payment]
    rw [if_pos (by simp [hpay])]
    rw [qtyOf_restoreInventory]
    by_cases hex : ∃ it ∈ st.order.items, it.product = pid
    · obtain ⟨it, hit, hpid⟩ := hex
      obtain ⟨p, hp, hpidEq⟩ := hin it hit
      rw [countId_eq_one st.products pid p hids hp (hpidEq.trans hpid)]
      ring
    · push_neg at hex
      rw [orderedQty_eq_zero _ pid hex]
      ring
  · simp [adminUpdateStatus]
  · intro res hres
    unfold refundOrder at hres
    rw [if_neg (fun hc => hc hpay)] at hres
    simp only [Except.ok.injEq] at hres
    rw [← hres]

/-- Witness for the amended C5 on `c5State`: cancelling restores product 1
from 5 to 7, the returned transition leaves the store unchanged. -/
theorem cancelled_restores_witness :
    c5State.order.payment.status = PaymentStatus.completed ∧
    (c5State.products.map Product.id).Nodup ∧
    qtyOf (adminUpdateStatus c5State OrderStatus.cancelled ("x") 9 9).products 1
      = qtyOf c5State.products 1 + orderedQty c5State.order.items 1 ∧
    (adminUpdateStatus c5State OrderStatus.returned ("x") 9 9).products = c5State.products := by
  have h := cancelled_restores_returned_does_not c5State ("x") 9 9 none rfl
    (by decide) (by decide)
  exact ⟨rfl, by decide, h.1 1, h.2.1⟩

/-- POST /orders/:id/cancel handler core: reject unless the current status is
pending, confirmed or processing; otherwise transition to cancelled and, when
the payment was completed, restore inventory for every line item. -/
def cancelOrder (st : OrderState) (reason : Option String) (userId : Nat) (now : Nat) :
    Except String OrderState :=
  if st.order.status = OrderStatus.pending ∨ st.order.status = OrderStatus.confirmed
      ∨ st.order.status = OrderStatus.processing then
    let o := st.order.updateStatus OrderStatus.cancelled
      (reason.getD ("Cancelled by user")) (some userId) now
    .ok { products :=
            if o.payment.status = PaymentStatus.completed then
              restoreInventory st.products o.items
            else st.products,
          order := o }
  else .error ("Order cannot be cancelled")

/-- C8: cancelling succeeds only from pending/confirmed/processing; on success
the order becomes cancelled and, when the payment was completed, every ordered
product's inventory is restored by its ordered quantity; a second cancel
attempt on the result fails (so inventory is restored at most once). -/
theorem cancel_order_spec (st : OrderState) (reason : Option String) (userId now : Nat) :
    ∀ res, cancelOrder st reason userId now = Except.ok res →
      (st.order.status = OrderStatus.pending ∨ st.order.status = OrderStatus.confirmed
        ∨ st.order.status = OrderStatus.processing) ∧
      res.order.status = OrderStatus.cancelled ∧
      (st.order.payment.status = PaymentStatus.completed →
        (st.products.map Product.id).Nodup →
        (∀ it ∈ st.order.items, ∃ p ∈ st.products, p.id = it.product) →
        ∀ pid, qtyOf res.products pid
          = qtyOf st.products pid + orderedQty st.order.items pid) ∧
      (∀ r2 u2 n2, cancelOrder res r2 u2 n2 = Except.error ("Order cannot be cancelled")) := by
  intro res hres
  unfold cancelOrder at hres
  split at hres
  case isTrue hcan =>
    simp only [Except.ok.injEq] at hres
    subst hres
    refine ⟨hcan, rfl, ?_, ?_⟩
    · intro hpay hids hin pid
      simp only [updateStatus_items, updateStatus_payment]
      rw [if_pos hpay]
      rw [qtyOf_restoreInventory]
      by_cases hex : ∃ it ∈ st.order.items, it.product = pid
      · obtain ⟨it, hit, hpid⟩ := hex
        obtain ⟨p, hp, hpidEq⟩ := hin it hit
        rw [countId_eq_one st.products pid p hids hp (hpidEq.trans hpid)]
        ring
      · push_neg at hex
        rw [orderedQty_eq_zero _ pid hex]
        ring
    · intro r2 u2 n2
      unfold cancelOrder
      rw [if_neg (by simp [Order.updateStatus])]
  case isFalse hcan => exact absurd hres (by simp)

/-- A pending, paid order over a stocked product, input of the C8 witness. -/
def c8State : OrderState :=
  { products := [{ id := 1, name := "W", price := 10, status := "active",
                   inventory := { quantity := 3, trackQuantity := true } }],
    order := { items := [{ product := 1, name := "W", price := 10, quantity := 2,
                           selectedVariants := [] }],
               pricing := { subtotal := 20, shipping := 0, tax := 0,
                            discount := 0, total := 20 },
               payment := { method := "stripe", status := .completed,
                            transactionId := some ("pi_8"), paidAt := some 1 },
               status := .pending,
               statusHistory := [],
               couponCode := none } }

/-- The state produced by cancelling `c8State`. -/
def c8ResultState : OrderState :=
  { products := [{ id := 1, name := "W", price := 10, status := "active",
                   inventory := { quantity := 5, trackQuantity := true } }],
    order := { items := [{ product := 1, name := "W", price := 10, quantity := 2,
                           selectedVariants := [] }],
               pricing := { subtotal := 20, shipping := 0, tax := 0,
                            discount := 0, total := 20 },
               payment := { method := "stripe", status := .completed,
                            transactionId := some ("pi_8"), paidAt := some 1 },
               status := .cancelled,
               statusHistory := [{ status := .cancelled, note := "Cancelled by user",
                                   updatedBy := some 7, updatedAt := 2 }],
               couponCode := none } }

/-- Witness for C8: cancelling the pending paid order restores product 1 from
3 to 5, and a second cancel attempt fails. -/
theorem cancel_order_witness :
    cancelOrder c8State none 7 2 = Except.ok c8ResultState ∧
    c8ResultState.order.status = OrderStatus.cancelled ∧
    qtyOf c8ResultState.products 1
      = qtyOf c8State.products 1 + orderedQty c8State.order.items 1 ∧
    cancelOrder c8ResultState none 7 3 = Except.error ("Order cannot be cancelled") := by
  have h : cancelOrder c8State none 7 2 = Except.ok c8ResultState := by
    norm_num [cancelOrder, Order.updateStatus, restoreInventory, incProduct,
      c8State, c8ResultState]
  have hs := cancel_order_spec c8State none 7 2 c8ResultState h
  exact ⟨h, hs.2.1, hs.2.2.1 rfl (by decide) (by decide) 1, hs.2.2.2 none 7 3⟩

/-- A validation issue reported by POST /cart/validate, reduced to the fields
the logic computes; ids and display strings are presentation. -/
structure Issue where
  type : String
  oldPrice : Option ℚ := none
  newPrice : Option ℚ := none
  requestedQuantity : Option Nat := none
  availableQuantity : Option Int := none
deriving DecidableEq, Repr

/-- The price-drift check at the end of the validate loop body: report
`price_changed` when the current price (product price plus captured variant
modifiers) differs from the captured line price by more than 0.01. -/
def priceIssue (p : Product) (item : CartItem) : List Issue :=
  let currentPrice := p.price + variantSum item.selectedVariants
  if 1 / 100 < |currentPrice - item.price| then
    [{ type := "price_changed", oldPrice := some item.price, newPrice := some currentPrice }]
  else []

/-- One iteration of the validate loop: missing product, inactive product,
out-of-stock (which skips the price check), insufficient stock (which does
not), then the price-drift check. -/
def itemIssues (ps : List Product) (item : CartItem) : List Issue :=
  match findProduct ps item.product with
  | none => [{ type := "product_not_found" }]
  | some p =>
    if p.status ≠ "active" then [{ type := "product_inactive" }]
    else if p.inventory.trackQuantity && decide (p.inventory.quantity < (item.quantity : Int)) then
      (if p.inventory.quantity = 0 then [{ type := "out_of_stock" }]
       else [{ type := "insufficient_stock", requestedQuantity := some item.quantity,
               availableQuantity := some p.inventory.quantity }] ++ priceIssue p item)
    else priceIssue p item

/-- The whole validate loop: issues of all line items, in order. -/
def validateItems (ps : List Product) (items : List CartItem) : List Issue :=
  (items.map (itemIssues ps)).join

/-- POST /cart/validate handler core: an empty cart is valid; otherwise the
issues are computed and returned with the validity flag; the stored cart is
returned unchanged in the first component. -/
def validateRoute (ps : List Product) (cart : Cart) : Cart × (Bool × List Issue) :=
  if cart.items.length = 0 then (cart, (true, []))
  else (cart, ((validateItems ps cart.items).isEmpty, validateItems ps cart.items))

/-- Spec-side check of one issue: its kind is one of the five documented
kinds, and a price-change issue certifies a drift beyond the 0.01 tolerance. -/
def issueOk (i : Issue) : Bool :=
  (i.type == "product_not_found" || i.type == "product_inactive"
    || i.type == "out_of_stock" || i.type == "insufficient_stock"
    || i.type == "price_changed") &&
  (if i.type == "price_changed" then
     match i.oldPrice, i.newPrice with
     | some a, some b => decide (1 / 100 < |b - a|)
     | _, _ => false
   else true)

/-- Every issue a single loop iteration emits passes `issueOk`. -/
theorem itemIssues_ok (ps : List Product) (item : CartItem) :
    (itemIssues ps item).all issueOk = true := by
  cases hf : findProduct ps item.product with
  | none => simp only [itemIssues, hf]; decide
  | some p =>
    simp only [itemIssues, hf]
    by_cases hst : p.status ≠ "active"
    · rw [if_pos hst]; decide
    · rw [if_neg hst]
      have hprice : (priceIssue p item).all issueOk = true := by
        unfold priceIssue
        by_cases hpc : 1 / 100 < |p.price + variantSum item.selectedVariants - item.price|
        · rw [if_pos hpc]
          simp [issueOk]
          simpa using hpc
        · rw [if_neg hpc]
          rfl
      by_cases htk :
          (p.inventory.trackQuantity && decide (p.inventory.quantity < (item.quantity : Int))) = true
      · rw [if_pos htk]
        by_cases hz : p.inventory.quantity = 0
        · rw [if_pos hz]; decide
        · rw [if_neg hz]
          rw [List.all_append]
          refine Bool.and_eq_true_iff.mpr ⟨?_, hprice⟩
          simp [issueOk]
      · rw [if_neg htk]
        exact hprice

/-- Every issue the validate loop emits passes `issueOk`. -/
theorem validateItems_ok (ps : List Product) (items : List CartItem) :
    (validateItems ps items).all issueOk = true := by
  unfold validateItems
  induction items with
  | nil => rfl
  | cons item rest ih =>
    simp only [List.map_cons, List.join_cons, List.all_append]
    exact Bool.and_eq_true_iff.mpr ⟨itemIssues_ok ps item, ih⟩

/-- C9: POST /cart/validate is read-only — the stored cart after the request
equals the stored cart before — and every reported issue is of one of the five
documented kinds, price-change issues certifying a drift beyond 0.01. -/
theorem validate_readonly_and_kinds (ps : List Product) (cart : Cart) :
    (validateRoute ps cart).1 = cart ∧
    ((validateRoute ps cart).2.2).all issueOk = true := by
  constructor
  · unfold validateRoute
    split <;> rfl
  · unfold validateRoute
    split
    · rfl
    · exact validateItems_ok ps cart.items

/-- The item filter of the GET /cart handler: keep an item only when its
product exists, is active, and tracked stock covers the item quantity. -/
def cartItemValid (ps : List Product) (item : CartItem) : Bool :=
  match findProduct ps item.product with
  | none => false
  | some p =>
    p.status == "active" &&
    !(p.inventory.trackQuantity && decide (p.inventory.quantity < (item.quantity : Int)))

/-- GET /cart handler core: filter out invalid items; when anything was
dropped, persist the trimmed cart; respond with the (possibly trimmed) cart.
First component: the stored cart after the request; second: the response. -/
def getCartRoute (ps : List Product) (cart : Cart) : Cart × Cart :=
  let validItems := cart.items.filter (cartItemValid ps)
  if validItems.length ≠ cart.items.length then
    ({ cart with items := validItems }, { cart with items := validItems })
  else (cart, cart)

/-- Spec-side keep condition for a line item under GET /cart. -/
def SpecItemKept (ps : List Product) (item : CartItem) : Prop :=
  ∃ p, findProduct ps item.product = some p ∧ p.status = "active" ∧
    (p.inventory.trackQuantity = true → (item.quantity : Int) ≤ p.inventory.quantity)

/-- A filter that keeps the length of the list kept everything. -/
theorem filter_eq_self_of_length {α : Type} (p : α → Bool) (l : List α)
    (h : (l.filter p).length = l.length) : l.filter p = l := by
  induction l with
  | nil => rfl
  | cons a l ih =>
    by_cases hpa : p a
    · rw [List.filter_cons_of_pos hpa] at h ⊢
      rw [List.length_cons, List.length_cons] at h
      rw [ih (Nat.succ_injective h)]
    · rw [List.filter_cons_of_neg hpa] at h
      have hle := List.length_filter_le p l
      rw [List.length_cons] at h
      omega

/-- C10: GET /cart is not read-only — the stored cart after the request keeps
exactly the items whose product exists, is active, and has sufficient tracked
stock; the response is that same trimmed cart (no issue list is produced),
and the coupon and discount are untouched. -/
theorem getCart_trims_and_persists (ps : List Product) (cart : Cart) :
    (getCartRoute ps cart).1.items = cart.items.filter (cartItemValid ps) ∧
    (∀ item, cartItemValid ps item = true ↔ SpecItemKept ps item) ∧
    (getCartRoute ps cart).2 = (getCartRoute ps cart).1 ∧
    (getCartRoute ps cart).1.couponCode = cart.couponCode ∧
    (getCartRoute ps cart).1.discount = cart.discount := by
  refine ⟨?_, ?_, ?_, ?_, ?_⟩
  · simp only [getCartRoute]
    split
    · rfl
    · next hlen =>
      push_neg at hlen
      show cart.items = _
      rw [filter_eq_self_of_length (cartItemValid ps) cart.items hlen]
  · intro item
    cases hf : findProduct ps item.product with
    | none => simp [cartItemValid, SpecItemKept, hf]
    | some p =>
      simp only [cartItemValid, SpecItemKept, hf, Option.some.injEq]
      cases htr : p.inventory.trackQuantity
      · simp [htr]
      · by_cases hlt : p.inventory.quantity < (item.quantity : Int)
        · simp [htr, hlt, not_le.mpr hlt]
        · have hle := not_lt.mp hlt
          simp [htr, hlt, hle]
  · simp only [getCartRoute]
    split <;> rfl
  · simp only [getCartRoute]
    split <;> rfl
  · simp only [getCartRoute]
    split <;> rfl

/-- Product store for the C9 and C10 witnesses: an active tracked product
whose price moved from 20 to 21, and an inactive product. -/
def c9Products : List Product :=
  [{ id := 1, name := "W", price := 21, status := "active",
     inventory := { quantity := 5, trackQuantity := true } },
   { id := 2, name := "V", price := 8, status := "inactive",
     inventory := { quantity := 9, trackQuantity := true } }]

/-- Cart for the C9 and C10 witnesses: one drifted-price line and one line
whose product is inactive. -/
def c9Cart : Cart :=
  { items := [{ product := 1, quantity := 1, selectedVariants := [], price := 20 },
              { product := 2, quantity := 1, selectedVariants := [], price := 8 }] }

/-- Witness for C9 at a concrete store and cart. -/
theorem validate_readonly_witness :
    (validateRoute c9Products c9Cart).1 = c9Cart ∧
    ((validateRoute c9Products c9Cart).2.2).all issueOk = true :=
  validate_readonly_and_kinds c9Products c9Cart

/-- Witness for C10 at a concrete store and cart. -/
theorem getCart_trims_witness :
    (getCartRoute c9Products c9Cart).1.items = c9Cart.items.filter (cartItemValid c9Products) ∧
    (∀ item, cartItemValid c9Products item = true ↔ SpecItemKept c9Products item) ∧
    (getCartRoute c9Products c9Cart).2 = (getCartRoute c9Products c9Cart).1 ∧
    (getCartRoute c9Products c9Cart).1.couponCode = c9Cart.couponCode ∧
    (getCartRoute c9Products c9Cart).1.discount = c9Cart.discount :=
  getCart_trims_and_persists c9Products c9Cart

end ECommerce
